import Mathlib

/-!
Verification of the libserver session registry (Go) against its
natural-language specification, via a shallow embedding in Lean 4.

Modelling conventions:
* Go `time.Time` instants and `time.Duration` values are both embedded as
  integers (nanosecond counts), so `time.Since(x)` evaluated at instant
  `now` is `now - x`.
* Go maps (`map[string]any`, `map[string]Session`) are embedded as the
  partial-function denotation `String → Option α`; a Go map read `m[k]`
  that returns the zero value (`nil`) on a missing key is embedded as the
  total read that returns the distinguished nil value.
* Go `any` payload values are embedded as `GoVal`, with `GoVal.vnil`
  standing for Go's `nil` interface value.
* Mutexes are dropped: each Go critical section becomes one atomic
  state-to-state function.  For the shutdown claims, the interleaving of
  the background sweep goroutine with callers is modelled explicitly as a
  labelled transition system (`SysState`, `sweepStep`).
* The repository carries two iterations of `DefaultSession`; the current
  one (the one the manager's constructor and the `Session` interface with
  `IsExpired`/`Update` compile against) carries `lastAccessedAt` and
  `expirationDuration`, and is the one embedded here.
-/

namespace LibServer

/-- Go `any` payload values; `vnil` is Go's `nil` interface value, which is
also what a Go map read yields on a missing key. -/
inductive GoVal where
  | vnil : GoVal
  | vstr : String → GoVal
  | vint : Int → GoVal
deriving DecidableEq

/-- Denotation of a Go `map[string]α` as a partial function. -/
def GoMap (α : Type) : Type := String → Option α

/-- The empty Go map (`make(map[string]α)`). -/
def GoMap.empty {α : Type} : GoMap α := fun _ => none

/-- Go map write `m[k] = v` (insert or overwrite). -/
def GoMap.set {α : Type} (m : GoMap α) (k : String) (v : α) : GoMap α :=
  fun x => if x = k then some v else m x

/-- Go `delete(m, k)` (no-op if the key is absent). -/
def GoMap.del {α : Type} (m : GoMap α) (k : String) : GoMap α :=
  fun x => if x = k then none else m x

/-- `DefaultSessionExpiration = time.Hour`, in nanoseconds. -/
def DefaultSessionExpiration : Int := 3600000000000

/-- `DefaultCleanupInterval = time.Hour`, in nanoseconds. -/
def DefaultCleanupInterval : Int := 3600000000000

/-- The current `DefaultSession` struct: payload map, creation and
last-access instants, id, and per-session expiration duration. -/
structure DefaultSession where
  data : GoMap GoVal
  createdAt : Int
  lastAccessedAt : Int
  id : String
  expirationDuration : Int

/-- `NewDefaultSessionWithExpiration`: both timestamps are set to the one
`now := time.Now()` read, the id to the freshly generated UUID string
(`freshId` — id generation is the one nondeterministic input, passed as a
parameter), the payload map empty. -/
def NewDefaultSessionWithExpiration (now : Int) (freshId : String)
    (expiration : Int) : DefaultSession :=
  { data := GoMap.empty
    createdAt := now
    lastAccessedAt := now
    id := freshId
    expirationDuration := expiration }

/-- `NewDefaultSession`: the default-expiration constructor. -/
def NewDefaultSession (now : Int) (freshId : String) : DefaultSession :=
  NewDefaultSessionWithExpiration now freshId DefaultSessionExpiration

/-- Session `Get`: a Go map read, returning `nil` when the key is absent. -/
def DefaultSession.Get (s : DefaultSession) (key : String) : GoVal :=
  match s.data key with
  | some v => v
  | none => GoVal.vnil

/-- Session `Set`. -/
def DefaultSession.Set (s : DefaultSession) (key : String) (value : GoVal) :
    DefaultSession :=
  { s with data := s.data.set key value }

/-- Session `Delete`. -/
def DefaultSession.Delete (s : DefaultSession) (key : String) : DefaultSession :=
  { s with data := s.data.del key }

/-- Session `Has`: the two-valued Go map read `_, ok := s.data[key]`. -/
def DefaultSession.Has (s : DefaultSession) (key : String) : Bool :=
  (s.data key).isSome

/-- Session `Clear`: replaces the payload map with a fresh empty one. -/
def DefaultSession.Clear (s : DefaultSession) : DefaultSession :=
  { s with data := GoMap.empty }

/-- `IsExpired` evaluated at instant `now`:
`time.Since(s.lastAccessedAt) > s.expirationDuration`. -/
def DefaultSession.IsExpired (s : DefaultSession) (now : Int) : Bool :=
  now - s.lastAccessedAt > s.expirationDuration

/-- `Id` accessor. -/
def DefaultSession.Id (s : DefaultSession) : String := s.id

/-- `CreatedAt` accessor. -/
def DefaultSession.CreatedAt (s : DefaultSession) : Int := s.createdAt

/-- `LastAccessedAt` accessor. -/
def DefaultSession.LastAccessedAt (s : DefaultSession) : Int := s.lastAccessedAt

/-- `Update`: `s.lastAccessedAt = time.Now()`. -/
def DefaultSession.Update (s : DefaultSession) (now : Int) : DefaultSession :=
  { s with lastAccessedAt := now }

/-- `ExpirationDuration` accessor. -/
def DefaultSession.ExpirationDuration (s : DefaultSession) : Int :=
  s.expirationDuration

/-- `SetExpirationDuration`: per-instance setter. -/
def DefaultSession.SetExpirationDuration (s : DefaultSession) (d : Int) :
    DefaultSession :=
  { s with expirationDuration := d }

/-- The `DefaultSessionManager` struct.  `stopChClosed` embeds whether
`close(s.stopCh)` has happened (a Go channel can be closed at most once;
closing it again panics). -/
structure DefaultSessionManager where
  data : GoMap DefaultSession
  stopChClosed : Bool
  cleanupInterval : Int
  sessionExpiration : Int
  cleanupRunning : Bool

/-- `NewDefaultSessionManagerWithConfig`: fresh empty map, open stop
channel; the constructor immediately calls `startCleanup`, which sets
`cleanupRunning` to true and launches the sweep goroutine. -/
def NewDefaultSessionManagerWithConfig (cleanupInterval sessionExpiration : Int) :
    DefaultSessionManager :=
  { data := GoMap.empty
    stopChClosed := false
    cleanupInterval := cleanupInterval
    sessionExpiration := sessionExpiration
    cleanupRunning := true }

/-- `NewDefaultSessionManager`: the default configuration. -/
def NewDefaultSessionManager : DefaultSessionManager :=
  NewDefaultSessionManagerWithConfig DefaultCleanupInterval DefaultSessionExpiration

/-- `Stop`: under the lock, close the stop channel and clear
`cleanupRunning` — but only if the sweep is recorded as running.
`none` embeds the panic a `close` of an already-closed channel would
raise; the `cleanupRunning` guard exists precisely to avoid it.
`Stop` returns without waiting for the sweep goroutine. -/
def DefaultSessionManager.Stop (m : DefaultSessionManager) :
    Option DefaultSessionManager :=
  if m.cleanupRunning then
    if m.stopChClosed then
      none
    else
      some { m with stopChClosed := true, cleanupRunning := false }
  else
    some m

/-- `CreateSession`: build a session with the manager's current default
expiration, insert it under its own freshly generated id, return it. -/
def DefaultSessionManager.CreateSession (m : DefaultSessionManager)
    (now : Int) (freshId : String) :
    DefaultSessionManager × DefaultSession :=
  let session := NewDefaultSessionWithExpiration now freshId m.sessionExpiration
  ({ m with data := m.data.set session.id session }, session)

/-- `CreateSessionWithID`: build a standard session (with its own fresh
UUID id) and store it under the caller-supplied key `id`. -/
def DefaultSessionManager.CreateSessionWithID (m : DefaultSessionManager)
    (id : String) (now : Int) (freshId : String) :
    DefaultSessionManager × DefaultSession :=
  let session := NewDefaultSessionWithExpiration now freshId m.sessionExpiration
  ({ m with data := m.data.set id session }, session)

/-- `GetSession`: plain map lookup; `none` embeds the `nil` return for a
missing id. -/
def DefaultSessionManager.GetSession (m : DefaultSessionManager) (id : String) :
    Option DefaultSession :=
  m.data id

/-- `DeleteSession`. -/
def DefaultSessionManager.DeleteSession (m : DefaultSessionManager)
    (id : String) : DefaultSessionManager :=
  { m with data := m.data.del id }

/-- `HasSession`. -/
def DefaultSessionManager.HasSession (m : DefaultSessionManager)
    (id : String) : Bool :=
  (m.data id).isSome

/-- `cleanup`, one sweep pass at instant `now`: under the exclusive lock,
range over the map and delete every entry whose `IsExpired()` is true.
The net effect of Go's range-with-delete loop is exactly this pointwise
filter: an entry is removed iff it is expired at the pass. -/
def DefaultSessionManager.cleanup (m : DefaultSessionManager) (now : Int) :
    DefaultSessionManager :=
  { m with
    data := fun id =>
      match m.data id with
      | some s => if s.IsExpired now then none else some s
      | none => none }

/-- `SessionCount` is not needed by any claim; `SetSessionExpiration`
replaces the default applied to sessions created from now on. -/
def DefaultSessionManager.SetSessionExpiration (m : DefaultSessionManager)
    (d : Int) : DefaultSessionManager :=
  { m with sessionExpiration := d }

/-- The `ServerData` shared store: a guarded `map[string]any`.  (The
`sessionManager` reference field is untouched by every claim and omitted.) -/
structure ServerData where
  data : GoMap GoVal

/-- `NewServerData`. -/
def NewServerData : ServerData := { data := GoMap.empty }

/-- Store `Set`. -/
def ServerData.Set (d : ServerData) (key : String) (value : GoVal) : ServerData :=
  { d with data := d.data.set key value }

/-- Store `Get`: Go map read, `nil` on a missing key. -/
def ServerData.Get (d : ServerData) (key : String) : GoVal :=
  match d.data key with
  | some v => v
  | none => GoVal.vnil

/-- Store `Delete`. -/
def ServerData.Delete (d : ServerData) (key : String) : ServerData :=
  { d with data := d.data.del key }

/-- Store `Has`. -/
def ServerData.Has (d : ServerData) (key : String) : Bool :=
  (d.data key).isSome

/-- Store `Clear`: replaces the map with a fresh empty one. -/
def ServerData.Clear (d : ServerData) : ServerData :=
  { d with data := GoMap.empty }

/-- The receiver methods declared on `ServerData` in `serverdata.go`, in
source order: the store's exported operation surface. -/
def serverDataMethods : List String :=
  ["Set", "Get", "Delete", "Has", "Clear", "SetSessionManager",
   "GetSessionManager"]

/-- Program counter of the sweep goroutine launched by `startCleanup`:
`waiting` = blocked in the `select`; `readyToClean` = the `<-ticker.C`
case was chosen and the call to `s.cleanup()` is pending; `done` = the
`<-s.stopCh` case was chosen and the goroutine has returned. -/
inductive SweepPC where
  | waiting : SweepPC
  | readyToClean : SweepPC
  | done : SweepPC
deriving DecidableEq

/-- Whole-system state for the shutdown claims: the manager, the sweep
goroutine's program counter, whether a ticker tick is pending in the
channel, and whether a call to `Stop` has already returned. -/
structure SysState where
  mgr : DefaultSessionManager
  pc : SweepPC
  tickPending : Bool
  stopReturned : Bool

/-- Interleaving events: the ticker fires; the `select` commits to the
tick case or to the (closed) stop-channel case; the pending
`s.cleanup()` call runs its pass at instant `now`; a caller runs
`Stop()` to completion. -/
inductive SweepLabel where
  | tickFire : SweepLabel
  | selectTick : SweepLabel
  | selectStop : SweepLabel
  | runCleanup : Int → SweepLabel
  | callStop : SweepLabel

/-- One interleaving step; `none` means the event is not enabled at this
state (or, for `callStop`, that `Stop` panicked).  The ticker only fires
while the goroutine is alive (`ticker.Stop()` is deferred to its return);
the `select` commits to the tick case only when a tick is pending, and to
the stop case only once the stop channel is closed; `s.cleanup()` runs
only after the tick case was chosen.  Mutual exclusion via `s.mu` is
reflected by each label being a single atomic step. -/
def sweepStep (st : SysState) : SweepLabel → Option SysState
  | SweepLabel.tickFire =>
      if st.pc = SweepPC.done then none
      else some { st with tickPending := true }
  | SweepLabel.selectTick =>
      if st.pc = SweepPC.waiting ∧ st.tickPending = true then
        some { st with pc := SweepPC.readyToClean, tickPending := false }
      else none
  | SweepLabel.selectStop =>
      if st.pc = SweepPC.waiting ∧ st.mgr.stopChClosed = true then
        some { st with pc := SweepPC.done }
      else none
  | SweepLabel.runCleanup now =>
      if st.pc = SweepPC.readyToClean then
        some { st with mgr := st.mgr.cleanup now, pc := SweepPC.waiting }
      else none
  | SweepLabel.callStop =>
      match st.mgr.Stop with
      | some m₁ => some { st with mgr := m₁, stopReturned := true }
      | none => none

/-- Run a whole schedule of interleaving events; `none` if any event in it
is not enabled where it occurs. -/
def sweepRun (st : SysState) : List SweepLabel → Option SysState
  | [] => some st
  | l :: ls =>
      match sweepStep st l with
      | some st₁ => sweepRun st₁ ls
      | none => none

/-- Fixture: session created at instant 0 with a 50 ns window. -/
def sessA : DefaultSession := NewDefaultSessionWithExpiration 0 "a" 50

/-- Fixture: session created at instant 990 with a 50 ns window. -/
def sessB : DefaultSession := NewDefaultSessionWithExpiration 990 "b" 50

/-- Fixture: running manager holding `sessA` and `sessB`. -/
def mgrAB : DefaultSessionManager :=
  { NewDefaultSessionManagerWithConfig 100 50 with
    data := (GoMap.empty.set "a" sessA).set "b" sessB }

/-- Fixture: `mgrAB` after a completed `Stop`. -/
def mgrStopped : DefaultSessionManager :=
  { mgrAB with stopChClosed := true, cleanupRunning := false }

/-- Fixture: initial whole-system state, sweep goroutine in its select. -/
def stInit : SysState :=
  { mgr := mgrAB, pc := SweepPC.waiting, tickPending := false,
    stopReturned := false }

/-- Fixture: state after the sweep goroutine observed cancellation. -/
def stDone : SysState :=
  { mgr := mgrStopped, pc := SweepPC.done, tickPending := false,
    stopReturned := true }

/-- Fixture: schedule where the ticker fires and the select commits to the
tick case before `Stop` runs, and the dispatched pass runs after `Stop`
returned. -/
def stopSchedule : List SweepLabel :=
  [SweepLabel.tickFire, SweepLabel.selectTick, SweepLabel.callStop,
   SweepLabel.runCleanup 1000]

/-- Fixture: session holding a stored Go `nil` at key "k". -/
def sessNil : DefaultSession :=
  (NewDefaultSessionWithExpiration 0 "s" 50).Set "k" GoVal.vnil

/-- Fixture: shared store holding a stored Go `nil` at key "k". -/
def storeNil : ServerData := NewServerData.Set "k" GoVal.vnil

/-- `Stop` never touches the session map. -/
theorem stop_preserves_data {m m₁ : DefaultSessionManager}
    (h : m.Stop = some m₁) : m₁.data = m.data := by
  unfold DefaultSessionManager.Stop at h
  split at h
  · split at h
    · cases h
    · cases h
      rfl
  · cases h
    rfl

/-- Claim C2: for every session and every evaluation instant, `IsExpired`
holds iff `now - lastAccessedAt > expirationDuration`, computed live from
the session's own two fields; `createdAt` plays no role in it. -/
theorem isExpired_iff_window_elapsed (s : DefaultSession) (now c : Int) :
    (s.IsExpired now = true ↔ now - s.lastAccessedAt > s.expirationDuration) ∧
    DefaultSession.IsExpired { s with createdAt := c } now = s.IsExpired now := by
  constructor
  · simp [DefaultSession.IsExpired]
  · rfl

/-- Claim C5: `Update` sets `lastAccessedAt` to the current instant and
nothing else; right after it a session with a positive window is not
expired, and the new deadline is measured from the `Update` instant. -/
theorem update_slides_window (s : DefaultSession) (now t : Int) :
    s.Update now = { s with lastAccessedAt := now } ∧
    (0 < s.expirationDuration →
      DefaultSession.IsExpired (s.Update now) now = false) ∧
    DefaultSession.IsExpired (s.Update now) t =
      decide (t - now > s.expirationDuration) := by
  refine ⟨rfl, ?_, rfl⟩
  intro h
  simp [DefaultSession.Update, DefaultSession.IsExpired]
  omega

/-- Witness for C5 at a concrete session and instants. -/
theorem update_slides_window_witness :
    DefaultSession.IsExpired (sessA.Update 100) 100 = false :=
  (update_slides_window sessA 100 200).2.1 (by decide)

/-- Claim C8: `CreateSession` immediately followed by `GetSession` on the
returned session's `Id()` observes that same created session. -/
theorem createSession_then_getSession (m : DefaultSessionManager) (now : Int)
    (freshId : String) :
    DefaultSessionManager.GetSession (m.CreateSession now freshId).1
        (DefaultSession.Id (m.CreateSession now freshId).2) =
      some (m.CreateSession now freshId).2 := by
  simp [DefaultSessionManager.CreateSession, DefaultSessionManager.GetSession,
    DefaultSession.Id, NewDefaultSessionWithExpiration, GoMap.set]

/-- Claim C10: on both the session payload and the shared store, `Get`
yields the same `nil` for a never-set key and for a stored `nil`, while
`Has` tells the two apart. -/
theorem get_conflates_absent_and_stored_nil (s : DefaultSession)
    (d : ServerData) (k : String) :
    (s.data k = none → s.Get k = GoVal.vnil ∧ s.Has k = false) ∧
    (s.data k = some GoVal.vnil → s.Get k = GoVal.vnil ∧ s.Has k = true) ∧
    (d.data k = none → d.Get k = GoVal.vnil ∧ d.Has k = false) ∧
    (d.data k = some GoVal.vnil → d.Get k = GoVal.vnil ∧ d.Has k = true) := by
  refine ⟨fun h => ?_, fun h => ?_, fun h => ?_, fun h => ?_⟩ <;>
    simp [DefaultSession.Get, DefaultSession.Has, ServerData.Get,
      ServerData.Has, h]

/-- Witness for C10 at concrete stores: "x" never set, `nil` stored at "k". -/
theorem get_conflates_absent_and_stored_nil_witness :
    (sessNil.Get "x" = GoVal.vnil ∧ sessNil.Has "x" = false) ∧
    (sessNil.Get "k" = GoVal.vnil ∧ sessNil.Has "k" = true) ∧
    (storeNil.Get "x" = GoVal.vnil ∧ storeNil.Has "x" = false) ∧
    (storeNil.Get "k" = GoVal.vnil ∧ storeNil.Has "k" = true) :=
  ⟨(get_conflates_absent_and_stored_nil sessNil storeNil "x").1 rfl,
   (get_conflates_absent_and_stored_nil sessNil storeNil "k").2.1 rfl,
   (get_conflates_absent_and_stored_nil sessNil storeNil "x").2.2.1 rfl,
   (get_conflates_absent_and_stored_nil sessNil storeNil "k").2.2.2 rfl⟩

/-- Claim C9 counterexample: `serverdata.go` declares no `Keys` and no
`Len` method on `ServerData`; its operation surface is exactly
`serverDataMethods`. -/
theorem serverData_no_keys_no_len :
    "Keys" ∉ serverDataMethods ∧ "Len" ∉ serverDataMethods := by
  decide

/-- Claim C9 (amended): the store offers `Get`/`Set`/`Delete`/`Has`/`Clear`
but no `Keys` or `Len`; after `Clear()` it holds no entries — every key is
absent (`Has` false, `Get` nil). -/
theorem serverData_clear_empties (d : ServerData) (k : String) :
    (ServerData.Clear d).Has k = false ∧
    (ServerData.Clear d).Get k = GoVal.vnil := by
  exact ⟨rfl, rfl⟩

/-- Claim C6: `SetSessionExpiration` is non-retroactive — every session
already in the map is returned unchanged afterwards, while a session
created afterwards carries the new duration. -/
theorem setSessionExpiration_non_retroactive (m : DefaultSessionManager)
    (dur : Int) (id : String) (s : DefaultSession) (now : Int)
    (freshId : String) :
    (m.data id = some s →
      DefaultSessionManager.GetSession (m.SetSessionExpiration dur) id = some s) ∧
    DefaultSession.ExpirationDuration
        ((DefaultSessionManager.CreateSession (m.SetSessionExpiration dur)
          now freshId).2) = dur := by
  exact ⟨fun h => h, rfl⟩

/-- Witness for C6: `sessA` (window 50) is untouched by switching the
default to 7200, and a session created after carries 7200. -/
theorem setSessionExpiration_non_retroactive_witness :
    DefaultSessionManager.GetSession (mgrAB.SetSessionExpiration 7200) "a" =
      some sessA ∧
    DefaultSession.ExpirationDuration
        ((DefaultSessionManager.CreateSession (mgrAB.SetSessionExpiration 7200)
          0 "z").2) = 7200 :=
  ⟨(setSessionExpiration_non_retroactive mgrAB 7200 "a" sessA 0 "z").1 rfl,
   (setSessionExpiration_non_retroactive mgrAB 7200 "a" sessA 0 "z").2⟩

/-- Claim C7: `CreateSessionWithID id` stores, under key `id`, a session
whose own `Id()` is the freshly generated UUID, not `id`; whenever the
fresh UUID differs from `id`, the stored session's id differs from its
key. -/
theorem createSessionWithID_fresh_id (m : DefaultSessionManager)
    (id : String) (now : Int) (freshId : String) :
    DefaultSessionManager.GetSession (m.CreateSessionWithID id now freshId).1
        id = some (m.CreateSessionWithID id now freshId).2 ∧
    DefaultSession.Id (m.CreateSessionWithID id now freshId).2 = freshId ∧
    (freshId ≠ id →
      DefaultSession.Id (m.CreateSessionWithID id now freshId).2 ≠ id) := by
  refine ⟨?_, rfl, fun h => h⟩
  simp [DefaultSessionManager.CreateSessionWithID,
    DefaultSessionManager.GetSession, GoMap.set]

/-- Witness for C7: restoring under key "a" with fresh UUID "x" stores a
session whose id is "x", not "a". -/
theorem createSessionWithID_fresh_id_witness :
    ("x" : String) ≠ "a" ∧
    DefaultSession.Id (mgrAB.CreateSessionWithID "a" 0 "x").2 ≠ "a" :=
  ⟨by decide, (createSessionWithID_fresh_id mgrAB "a" 0 "x").2.2 (by decide)⟩

/-- Claim C3: one `cleanup` pass at instant `now` removes exactly the
entries expired at `now`: an expired entry is deleted, a non-expired entry
stays with the very same session value, and an absent id stays absent. -/
theorem cleanup_evicts_exactly_expired (m : DefaultSessionManager)
    (now : Int) (id : String) (s : DefaultSession) :
    (m.data id = some s →
      (DefaultSession.IsExpired s now = true →
        DefaultSessionManager.GetSession (m.cleanup now) id = none) ∧
      (DefaultSession.IsExpired s now = false →
        DefaultSessionManager.GetSession (m.cleanup now) id = some s)) ∧
    (m.data id = none →
      DefaultSessionManager.GetSession (m.cleanup now) id = none) := by
  constructor
  · intro h
    constructor <;> intro hexp <;>
      simp [DefaultSessionManager.cleanup, DefaultSessionManager.GetSession,
        h, hexp]
  · intro h
    simp [DefaultSessionManager.cleanup, DefaultSessionManager.GetSession, h]

/-- Witness for C3 at a pass at instant 1000: `sessA` (window elapsed) is
evicted, `sessB` (still fresh) is kept unchanged. -/
theorem cleanup_evicts_exactly_expired_witness :
    DefaultSessionManager.GetSession (mgrAB.cleanup 1000) "a" = none ∧
    DefaultSessionManager.GetSession (mgrAB.cleanup 1000) "b" = some sessB :=
  ⟨((cleanup_evicts_exactly_expired mgrAB 1000 "a" sessA).1 rfl).1 rfl,
   ((cleanup_evicts_exactly_expired mgrAB 1000 "b" sessB).1 rfl).2 rfl⟩

/-- Claim C4: `Stop` is total and idempotent — under the reachable-state
invariant (running implies the channel is still open) it never panics, a
repeated `Stop` returns the same stopped manager, the session map is
untouched, and `GetSession`/`DeleteSession`/`CreateSession` behave
afterwards exactly as before. -/
theorem stop_idempotent_and_safe (m : DefaultSessionManager)
    (hinv : m.cleanupRunning = true → m.stopChClosed = false) :
    ∃ m₁, m.Stop = some m₁ ∧
      m₁.data = m.data ∧
      m₁.Stop = some m₁ ∧
      (∀ id, m₁.GetSession id = m.GetSession id) ∧
      (∀ id, (m₁.DeleteSession id).data = (m.DeleteSession id).data) ∧
      (∀ now freshId,
        DefaultSession.Id (m₁.CreateSession now freshId).2 = freshId ∧
        DefaultSessionManager.GetSession (m₁.CreateSession now freshId).1
            freshId = some (m₁.CreateSession now freshId).2) := by
  by_cases hr : m.cleanupRunning = true
  · refine ⟨{ m with stopChClosed := true, cleanupRunning := false },
      ?_, rfl, ?_, fun _ => rfl, fun _ => rfl, fun now freshId => ⟨rfl, ?_⟩⟩
    · simp [DefaultSessionManager.Stop, hr, hinv hr]
    · simp [DefaultSessionManager.Stop]
    · simp [DefaultSessionManager.CreateSession,
        DefaultSessionManager.GetSession, GoMap.set,
        NewDefaultSessionWithExpiration]
  · refine ⟨m, ?_, rfl, ?_, fun _ => rfl, fun _ => rfl,
      fun now freshId => ⟨rfl, ?_⟩⟩
    · simp [DefaultSessionManager.Stop, hr]
    · simp [DefaultSessionManager.Stop, hr]
    · simp [DefaultSessionManager.CreateSession,
        DefaultSessionManager.GetSession, GoMap.set,
        NewDefaultSessionWithExpiration]

/-- Witness for C4 at the freshly constructed manager (running, channel
open). -/
theorem stop_idempotent_and_safe_witness :
    ((NewDefaultSessionManagerWithConfig 100 50).cleanupRunning = true →
      (NewDefaultSessionManagerWithConfig 100 50).stopChClosed = false) ∧
    (∃ m₁, (NewDefaultSessionManagerWithConfig 100 50).Stop = some m₁ ∧
      m₁.data = (NewDefaultSessionManagerWithConfig 100 50).data ∧
      m₁.Stop = some m₁ ∧
      (∀ id, m₁.GetSession id =
        (NewDefaultSessionManagerWithConfig 100 50).GetSession id) ∧
      (∀ id, (m₁.DeleteSession id).data =
        ((NewDefaultSessionManagerWithConfig 100 50).DeleteSession id).data) ∧
      (∀ now freshId,
        DefaultSession.Id (m₁.CreateSession now freshId).2 = freshId ∧
        DefaultSessionManager.GetSession (m₁.CreateSession now freshId).1
            freshId = some (m₁.CreateSession now freshId).2)) :=
  ⟨fun _ => rfl,
   stop_idempotent_and_safe (NewDefaultSessionManagerWithConfig 100 50)
     (fun _ => rfl)⟩

/-- Claim C1 counterexample: in the valid interleaving `stopSchedule` —
the ticker fires and the select commits to the tick case, then `Stop`
runs to completion, then the already-dispatched `cleanup` pass runs — the
expired session "a" is evicted strictly after `Stop` has returned.  After
the first three events `Stop` has returned and "a" is still present;
after the whole schedule "a" has been swept (and the fresh "b" kept). -/
theorem sweep_after_stop_counterexample :
    (sweepRun stInit [SweepLabel.tickFire, SweepLabel.selectTick,
        SweepLabel.callStop]).map
        (fun st => (st.stopReturned, st.mgr.HasSession "a")) =
      some (true, true) ∧
    (sweepRun stInit stopSchedule).map
        (fun st => (st.stopReturned, st.mgr.HasSession "a",
          st.mgr.HasSession "b")) =
      some (true, false, true) := by
  exact ⟨rfl, rfl⟩

/-- Claim C1 (amended): `Stop` signals cancellation — it closes the stop
channel and clears the running flag, leaving the session map untouched —
and once the sweep goroutine has observed cancellation and returned, no
later step of the system ever changes the session map again; `Stop` does
not, however, wait for the goroutine, so one already-dispatched pass may
still execute after `Stop` returns. -/
theorem stop_signals_and_sweep_ceases :
    (∀ m : DefaultSessionManager,
      m.cleanupRunning = true → m.stopChClosed = false →
      m.Stop = some { m with stopChClosed := true, cleanupRunning := false }) ∧
    (∀ (st : SysState) (labels : List SweepLabel) (st₁ : SysState),
      st.pc = SweepPC.done → sweepRun st labels = some st₁ →
      st₁.mgr.data = st.mgr.data ∧ st₁.pc = SweepPC.done) := by
  constructor
  · intro m h₁ h₂
    simp [DefaultSessionManager.Stop, h₁, h₂]
  · intro st labels
    induction labels generalizing st with
    | nil =>
        intro st₁ hpc h
        cases h
        exact ⟨rfl, hpc⟩
    | cons l ls ih =>
        intro st₁ hpc h
        unfold sweepRun at h
        cases hstep : sweepStep st l with
        | none =>
            rw [hstep] at h
            cases h
        | some st₂ =>
            rw [hstep] at h
            have h₂ : st₂.mgr.data = st.mgr.data ∧ st₂.pc = SweepPC.done := by
              cases l with
              | tickFire => simp [sweepStep, hpc] at hstep
              | selectTick => simp [sweepStep, hpc] at hstep
              | selectStop => simp [sweepStep, hpc] at hstep
              | runCleanup now => simp [sweepStep, hpc] at hstep
              | callStop =>
                  simp only [sweepStep] at hstep
                  cases hStop : st.mgr.Stop with
                  | none => rw [hStop] at hstep; cases hstep
                  | some m₁ =>
                      rw [hStop] at hstep
                      cases hstep
                      exact ⟨stop_preserves_data hStop, hpc⟩
            obtain ⟨hd, hp⟩ := h₂
            obtain ⟨hd₁, hp₁⟩ := ih st₂ st₁ hp h
            exact ⟨hd₁.trans hd, hp₁⟩

/-- Witness for C1 (amended): the running fixture manager is stopped by
`Stop` with the channel closed, and from the terminated fixture state a
further `callStop` event leaves the session map unchanged. -/
theorem stop_signals_and_sweep_ceases_witness :
    mgrAB.cleanupRunning = true ∧ mgrAB.stopChClosed = false ∧
    stDone.pc = SweepPC.done ∧
    mgrAB.Stop =
      some { mgrAB with stopChClosed := true, cleanupRunning := false } ∧
    ({ stDone with stopReturned := true } : SysState).mgr.data =
      stDone.mgr.data :=
  ⟨rfl, rfl, rfl,
   stop_signals_and_sweep_ceases.1 mgrAB rfl rfl,
   (stop_signals_and_sweep_ceases.2 stDone [SweepLabel.callStop]
     { stDone with stopReturned := true } rfl rfl).1⟩

end LibServer
